import Mathlib

/-!
Verification of `src/main/python/src/git_attest/fetch_attestation.py`.

The module performs a single GraphQL POST and maps the JSON response into
an `Attestation` record.  We embed the parsed-JSON value space, the Python
dictionary operations the code uses (`d.get(k)`, `d.get(k, default)`,
`d[k]`, truthiness), the `requests` calls it makes (`requests.post`,
`Response.raise_for_status`, `Response.json`), and the two functions
`fetch_attestation` and `main`.  Python exceptions become the `error`
branch of `Except`; the single HTTP exchange is made explicit: the request
the code builds is a value (`fetchRequest`), and `fetch_attestation` takes
the server response as an argument.
-/

namespace GitAttest

/-- Parsed JSON values, i.e. the Python values produced by `Response.json()`
(JSON `null` parses to Python `None`, which `null` also stands for).
Numbers are modelled as integers; no claim depends on fractional values. -/
inductive Json where
  | null : Json
  | bool (b : Bool) : Json
  | num (n : Int) : Json
  | str (s : String) : Json
  | arr (xs : List Json) : Json
  | obj (fields : List (String × Json)) : Json

/-- Exceptions the Python code can raise on the modelled path. -/
inductive PyError where
  | httpError (status : Nat)
  | jsonDecodeError
  | attributeError
  | keyError (k : String)
  | typeError

/-- Lookup of a key in the field list of a parsed JSON object (a Python
dict, so keys are unique and the first match is the match). -/
def lookupField : List (String × Json) → String → Option Json
  | [], _ => none
  | (k, v) :: rest, key => if k = key then some v else lookupField rest key

/-- Models Python `d.get(key, default)`: on a dict, the stored value or the
default; on any non-dict value, `.get` does not exist (AttributeError). -/
def pyGetD (j : Json) (key : String) (default : Json) : Except PyError Json :=
  match j with
  | .obj fs => .ok ((lookupField fs key).getD default)
  | _ => .error .attributeError

/-- Models Python `d.get(key)`: the default is `None`, which in the parsed
value space coincides with `Json.null`. -/
def pyGet (j : Json) (key : String) : Except PyError Json :=
  pyGetD j key .null

/-- Models Python subscripting `d[key]`: KeyError on a dict missing the
key, TypeError on a value that is not a dict. -/
def pySubscript (j : Json) (key : String) : Except PyError Json :=
  match j with
  | .obj fs =>
    match lookupField fs key with
    | some v => .ok v
    | none => .error (.keyError key)
  | _ => .error .typeError

/-- Python truthiness of a parsed JSON value: `None`, `False`, `0`, `""`,
`[]` and `{}` are falsy, everything else truthy. -/
def Json.isTruthy : Json → Bool
  | .null => false
  | .bool b => b
  | .num n => n != 0
  | .str s => s != ""
  | .arr xs => !xs.isEmpty
  | .obj fs => !fs.isEmpty

/-- The dataclass `Attestation`.  Python does not enforce the `str`
annotations, so each field holds whatever parsed value was stored. -/
structure Attestation where
  uid : Json
  txid : Json
  schema : Json
  attester : Json
  recipient : Json

/-- An HTTP response as the code observes it: the status code, and the
parsed body — `none` when the body is not valid JSON, in which case
`Response.json()` raises. -/
structure HttpResponse where
  status : Nat
  body : Option Json

/-- Models `requests.Response.raise_for_status` (requests library): it
raises `HTTPError` exactly when `400 <= status_code < 600` and is a no-op
on every other status. -/
def raise_for_status (status : Nat) : Except PyError Unit :=
  if 400 ≤ status ∧ status < 600 then .error (.httpError status) else .ok ()

/-- The request `requests.post(EAS_GQL, json=query, timeout=20)` sends:
method, URL, the `json=` payload, the timeout, and the explicitly passed
headers (the code passes none). -/
structure HttpRequest where
  method : String
  url : String
  jsonBody : Json
  timeout : Nat
  headers : List (String × String)

/-- The module constant `EAS_GQL`. -/
def EAS_GQL : String := "https://base-sepolia.easscan.org/graphql"

/-- The triple-quoted GraphQL query text from `fetch_attestation`,
verbatim (braces written with escapes). -/
def attestationQuery : String :=
  "\n        query ($id: String!) \x7b\n          attestation(where: \x7b id: $id \x7d) \x7b\n            id\n            txid\n            schemaId\n            attester\n            recipient\n          \x7d\n        \x7d\n        "

/-- The `query` dict built by `fetch_attestation` for identifier `uid`:
`{"query": <text>, "variables": {"id": uid}}`. -/
def queryPayload (uid : String) : Json :=
  .obj [("query", .str attestationQuery), ("variables", .obj [("id", .str uid)])]

/-- The single `requests.post` call `fetch_attestation` makes for `uid`. -/
def fetchRequest (uid : String) : HttpRequest :=
  { method := "POST"
    url := EAS_GQL
    jsonBody := queryPayload uid
    timeout := 20
    headers := [] }

/-- The network calls `fetch_attestation uid` performs, in order: the body
contains exactly one `requests.post` call and no other I/O. -/
def fetchRequestTrace (uid : String) : List HttpRequest :=
  [fetchRequest uid]

/-- `fetch_attestation`, given the response the endpoint returned to
`fetchRequest uid`.  Mirrors the source line by line:
`r.raise_for_status()`; `data = r.json()`;
`att = data.get("data", {}).get("attestation")`;
`if not att: return None`; then the record is built, evaluating
`att["id"]` first and the four `att.get(...)` calls after. -/
def fetch_attestation (uid : String) (resp : HttpResponse) :
    Except PyError (Option Attestation) := do
  raise_for_status resp.status
  let data ← match resp.body with
    | some j => Except.ok j
    | none => Except.error PyError.jsonDecodeError
  let d ← pyGetD data "data" (.obj [])
  let att ← pyGet d "attestation"
  if att.isTruthy then
    let uidVal ← pySubscript att "id"
    let txidVal ← pyGet att "txid"
    let schemaVal ← pyGet att "schemaId"
    let attesterVal ← pyGet att "attester"
    let recipientVal ← pyGet att "recipient"
    return some ⟨uidVal, txidVal, schemaVal, attesterVal, recipientVal⟩
  else
    return none

/-- What one run of `main` produces when it returns normally: the return
value (the exit code), the records printed to stdout, and the lines
printed to stderr. -/
structure MainOutput where
  exitCode : Nat
  stdout : List Attestation
  stderr : List String

/-- `main`, after `argparse` has yielded the required `--uid` value, given
the response to the single fetch.  A returned `Attestation` instance is
always truthy (the dataclass defines no `__bool__`/`__len__`), so
`if not att` distinguishes exactly `None`. -/
def main (uid : String) (resp : HttpResponse) : Except PyError MainOutput :=
  match fetch_attestation uid resp with
  | .error e => .error e
  | .ok none => .ok ⟨2, [], ["Not found"]⟩
  | .ok (some att) => .ok ⟨0, [att], []⟩

/-- A field list with a hit for some key is nonempty, hence truthy. -/
theorem lookupField_some_not_isEmpty {fs : List (String × Json)} {k : String} {v : Json}
    (h : lookupField fs k = some v) : fs.isEmpty = false := by
  cases fs with
  | nil => simp [lookupField] at h
  | cons a l => rfl

/-- Shared evaluation lemma: on a non-raising status, a body whose `data`
field is an object whose `attestation` field is an object containing the
key `id`, `fetch_attestation` returns the record built by one subscript
and four dict-gets. -/
theorem fetch_found_eval (uid : String) (status : Nat)
    (top ds fs : List (String × Json)) (idv : Json)
    (hs : ¬ (400 ≤ status ∧ status < 600))
    (hd : lookupField top "data" = some (.obj ds))
    (ha : lookupField ds "attestation" = some (.obj fs))
    (hid : lookupField fs "id" = some idv) :
    fetch_attestation uid ⟨status, some (.obj top)⟩
      = .ok (some ⟨idv, (lookupField fs "txid").getD .null,
                   (lookupField fs "schemaId").getD .null,
                   (lookupField fs "attester").getD .null,
                   (lookupField fs "recipient").getD .null⟩) := by
  have hne : fs.isEmpty = false := lookupField_some_not_isEmpty hid
  simp [fetch_attestation, raise_for_status, hs, pyGetD, pyGet, pySubscript,
        hd, ha, hid, Json.isTruthy, hne, bind, Except.bind, pure, Except.pure,
        Functor.map, Except.map]

/-- C1 (counterexample): the empty object `{}` is a non-null
`data.attestation` object, yet `fetch_attestation` returns the not-found
signal instead of a record (the guard is a truthiness test). -/
theorem fetch_empty_object_gives_none :
    fetch_attestation "0xabc"
      ⟨200, some (.obj [("data", .obj [("attestation", .obj [])])])⟩ = .ok none := rfl

/-- C1 (amended): for a successful (2xx) response whose `data.attestation`
is a truthy object containing the key `id`, the returned record maps the
response fields identically: `uid` is the `id` value, and `txid`,
`schemaId`, `attester`, `recipient` are the dict-gets of those keys, with
absent keys mapped to null. -/
theorem fetch_identity_mapping (uid : String) (status : Nat)
    (top ds fs : List (String × Json)) (idv : Json)
    (hs : 200 ≤ status ∧ status < 300)
    (hd : lookupField top "data" = some (.obj ds))
    (ha : lookupField ds "attestation" = some (.obj fs))
    (hid : lookupField fs "id" = some idv) :
    fetch_attestation uid ⟨status, some (.obj top)⟩
      = .ok (some ⟨idv, (lookupField fs "txid").getD .null,
                   (lookupField fs "schemaId").getD .null,
                   (lookupField fs "attester").getD .null,
                   (lookupField fs "recipient").getD .null⟩) :=
  fetch_found_eval uid status top ds fs idv (by omega) hd ha hid

/-- C1 (witness): end-to-end example 1 — all five fields present. -/
theorem fetch_identity_mapping_checked :
    fetch_attestation "0xabc"
      ⟨200, some (.obj [("data", .obj [("attestation", .obj
        [("id", .str "0xabc"), ("txid", .str "0x111"), ("schemaId", .str "0xschema"),
         ("attester", .str "0xaa"), ("recipient", .str "0xbb")])])])⟩
      = .ok (some ⟨.str "0xabc", .str "0x111", .str "0xschema", .str "0xaa", .str "0xbb"⟩) :=
  fetch_identity_mapping "0xabc" 200
    [("data", .obj [("attestation", .obj
      [("id", .str "0xabc"), ("txid", .str "0x111"), ("schemaId", .str "0xschema"),
       ("attester", .str "0xaa"), ("recipient", .str "0xbb")])])]
    [("attestation", .obj
      [("id", .str "0xabc"), ("txid", .str "0x111"), ("schemaId", .str "0xschema"),
       ("attester", .str "0xaa"), ("recipient", .str "0xbb")])]
    [("id", .str "0xabc"), ("txid", .str "0x111"), ("schemaId", .str "0xschema"),
     ("attester", .str "0xaa"), ("recipient", .str "0xbb")]
    (.str "0xabc") (by omega) rfl rfl rfl

/-- C2: on a successful (2xx) response whose top-level JSON is an object
in which `data` is absent, or `data` is an object in which `attestation`
is absent or null, `fetch_attestation` returns the not-found signal as a
normal value, not an error. -/
theorem fetch_not_found_on_absent_or_null (uid : String) (status : Nat)
    (top : List (String × Json))
    (hs : 200 ≤ status ∧ status < 300)
    (h : lookupField top "data" = none ∨
      ∃ ds : List (String × Json), lookupField top "data" = some (.obj ds) ∧
        (lookupField ds "attestation" = none ∨ lookupField ds "attestation" = some .null)) :
    fetch_attestation uid ⟨status, some (.obj top)⟩ = .ok none := by
  have hs' : ¬ (400 ≤ status ∧ status < 600) := by omega
  rcases h with h | ⟨ds, hd, h⟩
  · simp [fetch_attestation, raise_for_status, hs', pyGetD, pyGet, h, lookupField,
          Json.isTruthy, bind, Except.bind, pure, Except.pure]
  · rcases h with h | h <;>
      simp [fetch_attestation, raise_for_status, hs', pyGetD, pyGet, hd, h,
            Json.isTruthy, bind, Except.bind, pure, Except.pure]

/-- C2 (witness): `data.attestation` explicitly null. -/
theorem fetch_not_found_on_absent_or_null_checked :
    fetch_attestation "0xdeadbeef"
      ⟨200, some (.obj [("data", .obj [("attestation", .null)])])⟩ = .ok none :=
  fetch_not_found_on_absent_or_null "0xdeadbeef" 200 [("data", .obj [("attestation", .null)])]
    (by omega) (Or.inr ⟨[("attestation", .null)], rfl, Or.inr rfl⟩)

/-- C3: when the fetch returns not-found, `main` returns exit code 2 with
`"Not found"` on stderr and nothing on stdout; when the fetch returns a
record, `main` returns exit code 0 with the record printed to stdout and
nothing on stderr. -/
theorem main_found_and_not_found (uid : String) (resp : HttpResponse) :
    (fetch_attestation uid resp = .ok none →
      main uid resp = .ok ⟨2, [], ["Not found"]⟩) ∧
    (∀ a : Attestation, fetch_attestation uid resp = .ok (some a) →
      main uid resp = .ok ⟨0, [a], []⟩) := by
  constructor
  · intro h
    simp [main, h]
  · intro a h
    simp [main, h]

/-- C3 (witness): end-to-end examples 2 (not found) and 1 (found). -/
theorem main_found_and_not_found_checked :
    main "0xdeadbeef" ⟨200, some (.obj [("data", .obj [("attestation", .null)])])⟩
      = .ok ⟨2, [], ["Not found"]⟩ ∧
    main "0xabc"
      ⟨200, some (.obj [("data", .obj [("attestation", .obj
        [("id", .str "0xabc"), ("txid", .str "0x111"), ("schemaId", .str "0xschema"),
         ("attester", .str "0xaa"), ("recipient", .str "0xbb")])])])⟩
      = .ok ⟨0, [⟨.str "0xabc", .str "0x111", .str "0xschema", .str "0xaa", .str "0xbb"⟩], []⟩ :=
  ⟨(main_found_and_not_found "0xdeadbeef"
      ⟨200, some (.obj [("data", .obj [("attestation", .null)])])⟩).1 rfl,
   (main_found_and_not_found "0xabc"
      ⟨200, some (.obj [("data", .obj [("attestation", .obj
        [("id", .str "0xabc"), ("txid", .str "0x111"), ("schemaId", .str "0xschema"),
         ("attester", .str "0xaa"), ("recipient", .str "0xbb")])])])⟩).2
     ⟨.str "0xabc", .str "0x111", .str "0xschema", .str "0xaa", .str "0xbb"⟩ rfl⟩

/-- C4 (counterexample): a truthy attestation object lacking `id` does not
yield a record — `att["id"]` raises KeyError, so absence of `id` is not
passed through unchecked. -/
theorem fetch_missing_id_raises :
    fetch_attestation "0xabc"
      ⟨200, some (.obj [("data", .obj [("attestation", .obj
        [("schemaId", .str "0xschema"), ("attester", .str "0xaa")])])])⟩
      = .error (.keyError "id") := rfl

/-- C4 (amended): `schemaId` and `attester` are read with dict-get and
passed through unchecked — when absent the record is still returned with
those fields null; only `id` is accessed by subscript, and its absence
raises KeyError. -/
theorem fetch_schema_attester_unchecked (uid : String) (status : Nat)
    (top ds fs : List (String × Json)) (idv : Json)
    (hs : 200 ≤ status ∧ status < 300)
    (hd : lookupField top "data" = some (.obj ds))
    (ha : lookupField ds "attestation" = some (.obj fs))
    (hid : lookupField fs "id" = some idv)
    (hsch : lookupField fs "schemaId" = none)
    (hatt : lookupField fs "attester" = none) :
    fetch_attestation uid ⟨status, some (.obj top)⟩
      = .ok (some ⟨idv, (lookupField fs "txid").getD .null, .null, .null,
                   (lookupField fs "recipient").getD .null⟩) := by
  have h := fetch_found_eval uid status top ds fs idv (by omega) hd ha hid
  rw [hsch, hatt] at h
  exact h

/-- C4 (witness): attestation `{"id": "0xabc"}` alone still produces a
record, with `schema` and `attester` null. -/
theorem fetch_schema_attester_unchecked_checked :
    fetch_attestation "0xabc"
      ⟨200, some (.obj [("data", .obj [("attestation", .obj [("id", .str "0xabc")])])])⟩
      = .ok (some ⟨.str "0xabc", .null, .null, .null, .null⟩) :=
  fetch_schema_attester_unchecked "0xabc" 200
    [("data", .obj [("attestation", .obj [("id", .str "0xabc")])])]
    [("attestation", .obj [("id", .str "0xabc")])]
    [("id", .str "0xabc")] (.str "0xabc") (by omega) rfl rfl rfl rfl rfl

/-- C5 (counterexample): status 304 is non-2xx, yet `raise_for_status`
does not raise and the call proceeds to return not-found. -/
theorem fetch_status_304_no_raise :
    fetch_attestation "0xabc"
      ⟨304, some (.obj [("data", .obj [("attestation", .null)])])⟩ = .ok none := rfl

/-- C5 (amended): `fetch_attestation` raises an HTTPError exactly for
statuses 400–599 (the `raise_for_status` contract), returning neither a
record nor not-found there; other non-2xx statuses are not raised. -/
theorem fetch_raises_on_client_server_error (uid : String) (status : Nat)
    (body : Option Json) (h : 400 ≤ status ∧ status < 600) :
    fetch_attestation uid ⟨status, body⟩ = .error (.httpError status) := by
  simp [fetch_attestation, raise_for_status, h, bind, Except.bind]

/-- C5 (witness): a 404 response raises regardless of body. -/
theorem fetch_raises_on_client_server_error_checked :
    fetch_attestation "0xabc" ⟨404, none⟩ = .error (.httpError 404) :=
  fetch_raises_on_client_server_error "0xabc" 404 none (by omega)

/-- C6: on a successful (2xx) response whose body is not valid JSON,
`fetch_attestation` raises a fatal JSON-decode error, returning neither a
record nor the not-found signal. -/
theorem fetch_invalid_json_fatal (uid : String) (status : Nat)
    (hs : 200 ≤ status ∧ status < 300) :
    fetch_attestation uid ⟨status, none⟩ = .error .jsonDecodeError := by
  have hs' : ¬ (400 ≤ status ∧ status < 600) := by omega
  simp [fetch_attestation, raise_for_status, hs', bind, Except.bind]

/-- C6 (witness): a 200 response with a non-JSON body. -/
theorem fetch_invalid_json_fatal_checked :
    fetch_attestation "0xabc" ⟨200, none⟩ = .error .jsonDecodeError :=
  fetch_invalid_json_fatal "0xabc" 200 (by omega)

/-- C7: `fetch_attestation` performs exactly one HTTP request, and it is a
POST to the fixed endpoint with a JSON body of a `query` string and a
`variables` object holding the single string-valued key `id` equal to the
identifier, a 20-second timeout, and no headers. -/
theorem fetch_single_post_shape (uid : String) :
    (fetchRequestTrace uid).length = 1 ∧
    ∀ r ∈ fetchRequestTrace uid,
      r.method = "POST" ∧
      r.url = "https://base-sepolia.easscan.org/graphql" ∧
      r.jsonBody = .obj [("query", .str attestationQuery),
                         ("variables", .obj [("id", .str uid)])] ∧
      r.timeout = 20 ∧ r.headers = [] := by
  refine ⟨rfl, ?_⟩
  intro r hr
  rw [List.mem_singleton.mp hr]
  exact ⟨rfl, rfl, rfl, rfl, rfl⟩

/-- C7 (witness): the request built for identifier `"0xabc"`. -/
theorem fetch_single_post_shape_checked :
    (fetchRequestTrace "0xabc").length = 1 ∧
    ((fetchRequest "0xabc").method = "POST" ∧
     (fetchRequest "0xabc").url = "https://base-sepolia.easscan.org/graphql" ∧
     (fetchRequest "0xabc").jsonBody = .obj [("query", .str attestationQuery),
                                             ("variables", .obj [("id", .str "0xabc")])] ∧
     (fetchRequest "0xabc").timeout = 20 ∧ (fetchRequest "0xabc").headers = []) :=
  ⟨(fetch_single_post_shape "0xabc").1,
   (fetch_single_post_shape "0xabc").2 (fetchRequest "0xabc") (List.mem_singleton.mpr rfl)⟩

/-- C8: when `data.attestation` is present with a non-null but falsy value
(such as the empty object), the truthiness guard sends the call down the
not-found branch rather than building a record. -/
theorem fetch_falsy_attestation_not_found (uid : String) (status : Nat)
    (top ds : List (String × Json)) (v : Json)
    (hs : 200 ≤ status ∧ status < 300)
    (hd : lookupField top "data" = some (.obj ds))
    (ha : lookupField ds "attestation" = some v)
    (hnn : v ≠ .null) (hf : v.isTruthy = false) :
    fetch_attestation uid ⟨status, some (.obj top)⟩ = .ok none := by
  have hs' : ¬ (400 ≤ status ∧ status < 600) := by omega
  simp [fetch_attestation, raise_for_status, hs', pyGetD, pyGet, hd, ha, hf,
        bind, Except.bind, pure, Except.pure]

/-- C8 (witness): `data.attestation` equal to the empty object. -/
theorem fetch_falsy_attestation_not_found_checked :
    fetch_attestation "0xabc"
      ⟨200, some (.obj [("data", .obj [("attestation", .obj [])])])⟩ = .ok none :=
  fetch_falsy_attestation_not_found "0xabc" 200
    [("data", .obj [("attestation", .obj [])])] [("attestation", .obj [])] (.obj [])
    (by omega) rfl rfl (fun h => nomatch h) rfl

/-- C9: every normal (non-raising) return of `main` carries exit code 0
or exit code 2 and nothing else. -/
theorem main_exit_code_zero_or_two (uid : String) (resp : HttpResponse)
    (out : MainOutput) (h : main uid resp = .ok out) :
    out.exitCode = 0 ∨ out.exitCode = 2 := by
  unfold main at h
  cases hf : fetch_attestation uid resp with
  | error e =>
    rw [hf] at h
    exact absurd h (by simp)
  | ok o =>
    rw [hf] at h
    cases o with
    | none =>
      right
      rw [← Except.ok.inj h]
    | some a =>
      left
      rw [← Except.ok.inj h]

/-- C9 (witness): the not-found run returns exit code 2. -/
theorem main_exit_code_zero_or_two_checked :
    (MainOutput.mk 2 [] ["Not found"]).exitCode = 0 ∨
    (MainOutput.mk 2 [] ["Not found"]).exitCode = 2 :=
  main_exit_code_zero_or_two "0xdeadbeef"
    ⟨200, some (.obj [("data", .obj [("attestation", .null)])])⟩
    ⟨2, [], ["Not found"]⟩ rfl

/-- C10: `fetch_attestation` is deterministic — two runs with the same
identifier and the same HTTP response build the same request and produce
the same outcome; no other state enters the computation. -/
theorem fetch_deterministic (uid₁ uid₂ : String) (r₁ r₂ : HttpResponse)
    (hu : uid₁ = uid₂) (hr : r₁ = r₂) :
    fetchRequestTrace uid₁ = fetchRequestTrace uid₂ ∧
    fetch_attestation uid₁ r₁ = fetch_attestation uid₂ r₂ := by
  subst hu
  subst hr
  exact ⟨rfl, rfl⟩

/-- C10 (witness): two identical runs on example 2 agree. -/
theorem fetch_deterministic_checked :
    fetchRequestTrace "0xdeadbeef" = fetchRequestTrace "0xdeadbeef" ∧
    fetch_attestation "0xdeadbeef" ⟨200, some (.obj [("data", .obj [("attestation", .null)])])⟩
      = fetch_attestation "0xdeadbeef" ⟨200, some (.obj [("data", .obj [("attestation", .null)])])⟩ :=
  fetch_deterministic "0xdeadbeef" "0xdeadbeef"
    ⟨200, some (.obj [("data", .obj [("attestation", .null)])])⟩
    ⟨200, some (.obj [("data", .obj [("attestation", .null)])])⟩ rfl rfl

end GitAttest
